import Mathlib

/-!
Verification of `make_meta_yml.py` (conda-build recipe generator).

The Python source is shallowly embedded below.  Network effects
(`requests.get`), tar extraction, hashing (`hashlib.sha256`), the
partial execution of `setup.py` (`distutils.core.run_setup`) and YAML
serialization (`yaml.dump`) are external library calls; they are
modelled as fields of an `Env` record (an oracle fixing the outcome of
each external call), while every line of logic that lives in the
source file itself is translated directly.  The interpreter state that
the source mutates (`os.chdir`, `sys.path.insert`) is reified as an
explicit `PyState` value threaded through `parse_setup_py`.
-/

namespace CondaMeta

/-- Worker for Python `str.count(sub)`: scan left to right; `skip`
counts characters still covered by the previous match (so occurrences
do not overlap). -/
def countOccAux (pat : List Char) : List Char → Nat → Nat
  | [], _ => 0
  | _ :: rest, Nat.succ k => countOccAux pat rest k
  | c :: rest, 0 =>
    if pat.isPrefixOf (c :: rest) then
      1 + countOccAux pat rest (pat.length - 1)
    else
      countOccAux pat rest 0

/-- Python `str.count(sub)` for a nonempty pattern: the number of
non-overlapping occurrences of `pat` in `s`, scanning left to right. -/
def countOcc (pat s : List Char) : Nat :=
  countOccAux pat s 0

/-- Python `str.lower()`, restricted to the ASCII range (sufficient for
the all-ASCII keyword patterns used by the classifier). -/
def pyLower (s : List Char) : List Char :=
  s.map Char.toLower

/-- Python `sub in s` for strings: contiguous-substring test. -/
def pyIn (pat s : List Char) : Bool :=
  decide (pat <:+: s)

/-- Worker for Python `str.splitlines()`.  `cur` is the current line
accumulated in reverse; `afterCR` records that the previous character
was a `\r` whose line was already emitted, so that an immediately
following `\n` is part of the same `\r\n` boundary.  Line boundaries
modelled: `\n`, `\r\n` and `\r` (the boundaries that occur in
requirements files; Python also splits on some rarer control
separators). -/
def splitlinesGo : Bool → List Char → List Char → List (List Char)
  | _, cur, [] => if cur.isEmpty then [] else [cur.reverse]
  | afterCR, cur, c :: rest =>
    if c = '\n' then
      if afterCR then splitlinesGo false cur rest
      else cur.reverse :: splitlinesGo false [] rest
    else if c = '\r' then
      cur.reverse :: splitlinesGo true [] rest
    else
      splitlinesGo false (c :: cur) rest

/-- Python `str.splitlines()`: note that a trailing line terminator
does not produce a final empty entry, while interior blank lines are
kept as empty strings. -/
def pySplitlines (s : String) : List String :=
  (splitlinesGo false [] s.data).map (fun l => String.mk l)

/-- Join lines with `\n` (used to describe a file that consists of the
given lines; no terminator after the last line). -/
def joinNL : List String → String
  | [] => ""
  | [l] => l
  | l :: rest => l ++ "\n" ++ joinNL rest

/-- Does the string start with a `/`? -/
def startsWithSlash (s : String) : Bool :=
  match s.data with
  | '/' :: _ => true
  | _ => false

/-- Does the string end with a `/`? -/
def endsWithSlash (s : String) : Bool :=
  match s.data.getLast? with
  | some '/' => true
  | _ => false

/-- Models `os.path.join a b` on posix: an absolute second component
discards the first, otherwise the parts are glued with `/`. -/
def osJoin (a b : String) : String :=
  if startsWithSlash b then b
  else if a = "" then b
  else if endsWithSlash a then a ++ b
  else a ++ "/" ++ b

/-- The part of `p` up to and including the last `/` (empty if `p`
contains no slash). -/
def takeToLastSlash (p : List Char) : List Char :=
  (p.reverse.dropWhile (fun c => c ≠ '/')).reverse

/-- Models `os.path.basename`: everything after the last `/`. -/
def basename (p : String) : String :=
  String.mk ((p.data.reverse.takeWhile (fun c => c ≠ '/')).reverse)

/-- Models `os.path.dirname` on posix: the head up to the last slash, with
trailing slashes stripped unless the head consists only of slashes. -/
def dirname (p : String) : String :=
  let head := takeToLastSlash p.data
  if head.isEmpty then ""
  else if head.all (fun c => c = '/') then String.mk head
  else String.mk ((head.reverse.dropWhile (fun c => c = '/')).reverse)

/-- Python exception values raised by the program. -/
inductive Err where
  /-- Python `ValueError(msg)` -/
  | valueError (msg : String)
  /-- Python `requests.exceptions.HTTPError` carrying `str(exception)` -/
  | httpError (msg : String)
  /-- A `KeyError` from a missing JSON field -/
  | keyError (key : String)
  /-- OS-level error while opening/reading a file -/
  | osError (path : String)
  /-- any other exception (tar decoding, setup.py evaluation, ...) -/
  | other (msg : String)
deriving DecidableEq

/-- The metadata object returned by
`setuptools.distutils.core.run_setup(..., stop_after="config")`, as
consumed by the source (`get_version`, `get_url`, `get_name`,
`get_description`). -/
structure Dist where
  version : String
  url : String
  name : String
  description : String
deriving DecidableEq

/-- Process-wide interpreter state mutated by `parse_setup_py`:
the working directory (`os.getcwd`/`os.chdir`) and the module search
path (`sys.path`). -/
structure PyState where
  cwd : String
  sys_path : List String
deriving DecidableEq

/-- The extracted source tree: `base` is the directory handed to
`os.walk`, `walk` lists the `(root, files)` pairs in walk order, and
`contents` maps a file path to its text. -/
structure FS where
  base : String
  walk : List (String × List String)
  contents : List (String × String)
deriving DecidableEq

/-- Models `open(path).read()`: the file's text, or an OS error if the path
cannot be read. -/
def readFile (fs : FS) (path : String) : Except Err String :=
  match fs.contents.lookup path with
  | none => Except.error (Err.osError path)
  | some c => Except.ok c

/-- The `for root, _, files in os.walk(...)` loop shared by
`parse_license`, `get_requirements` and `parse_setup_py`: the first
directory (in walk order) with a file whose lowercased name contains
`key`, and within it the first such filename (list order); the result
is `os.path.join(root, filename)`. -/
def findFirst (walk : List (String × List String)) (key : String) : Option String :=
  match walk with
  | [] => none
  | (root, files) :: rest =>
    match files.filter (fun filename => pyIn key.data (pyLower filename.data)) with
    | [] => findFirst rest key
    | f :: _ => some (osJoin root f)

/-- The `meta` dictionary assembled by `make_meta_yaml` (insertion
order of the Python dict preserved as field order). -/
structure Meta where
  package_name : String
  package_version : String
  source_url : String
  source_sha256 : String
  build_number : Nat
  build_script : String
  requirements_host : List String
  requirements_run : List String
  test_imports : List String
  about_home : String
  about_license : String
  about_license_file : String
  about_summary : String
  about_doc_url : String
  about_dev_url : String
  extra_recipe_maintainers : List String
deriving DecidableEq

/-- The rendered output: the jinja preamble, the structured document,
and the final text (preamble, blank line, YAML dump of the document). -/
structure Manifest where
  preamble : String
  meta : Meta
  text : String
deriving DecidableEq

/-- Oracle fixing the outcome of every external library call. -/
structure Env where
  /-- status code returned by `requests.get` for a given URL -/
  http_status : String → Nat
  /-- body bytes returned by `requests.get` for a given URL -/
  http_content : String → List Nat
  /-- the `tag_name` field of the latest-release JSON, if present -/
  latest_release_tag : Option String
  /-- Result of `extract_tar_gz`: the extracted tree, or a tar/gzip error -/
  extract : List Nat → Except Err FS
  /-- Result of `hashlib.sha256(bytes).hexdigest()` -/
  sha256_hex : List Nat → String
  /-- Result of `distutils.core.run_setup(filepath, stop_after="config")`,
  evaluated in the given interpreter state -/
  run_setup : String → PyState → Except Err Dist
  /-- Result of `yaml.dump(meta, sort_keys=False, Dumper=CondaYamlDumper)` -/
  yaml_dump : Meta → String

/-- The string `str(HTTPError)` as raised by `response.raise_for_status()`: the
decimal status, a client/server marker and the URL.  (The
server-supplied reason phrase is omitted from the model.) -/
def http_error_msg (status : Nat) (url : String) : String :=
  toString status ++ (if status < 500 then " Client Error" else " Server Error")
    ++ " for url: " ++ url

/-- Models `response.raise_for_status()`: raises `HTTPError` exactly for
status codes in `[400, 600)`. -/
def raise_for_status (status : Nat) (url : String) : Except Err Unit :=
  if 400 ≤ status ∧ status < 600 then
    Except.error (Err.httpError (http_error_msg status url))
  else
    Except.ok ()

/-- Embeds `get_latest_release`: reads `response.json()["tag_name"]`; no
status check is performed, and a missing field raises `KeyError`. -/
def get_latest_release (env : Env) (_username _repo : String) : Except Err String :=
  match env.latest_release_tag with
  | none => Except.error (Err.keyError "tag_name")
  | some tag_name => Except.ok tag_name

/-- Embeds `download_tar_gz`: GET the tag archive URL, raise for a non-success
status, and return the body bytes. -/
def download_tar_gz (env : Env) (username repo tag_name : String) :
    Except Err (List Nat) :=
  let url := "https://github.com/" ++ username ++ "/" ++ repo
    ++ "/archive/refs/tags/" ++ tag_name ++ ".tar.gz"
  match raise_for_status (env.http_status url) url with
  | Except.error e => Except.error e
  | Except.ok _ => Except.ok (env.http_content url)

/-- The license-count dictionary built by `parse_license`, in Python
dict insertion order. -/
def licenseCounts (content : String) : List (String × Nat) :=
  [("MIT", countOcc "MIT".data content.data),
   ("Apache-2.0", countOcc "apache".data (pyLower content.data)),
   ("GPL-2.0-or-later", countOcc "GNU".data content.data),
   ("BSD-3-Clause", countOcc "bsd 3".data (pyLower content.data))]

/-- Python `max(d, key=lambda k: d[k])` over an association list in
iteration order: keep the current best and replace it only on a
strictly greater value, so the first maximal entry wins. -/
def pyMaxKey : (String × Nat) → List (String × Nat) → String
  | best, [] => best.1
  | best, p :: rest => pyMaxKey (if best.2 < p.2 then p else best) rest

/-- Python `max` over a nonempty association list (the license dict always
has four entries, so the empty case is unreachable). -/
def pyMaxKeyList (l : List (String × Nat)) : String :=
  match l with
  | [] => ""
  | p :: rest => pyMaxKey p rest

/-- Selection rule in the spec's words (refinement side, not a
translation of the code): the greatest count occurring in the list. -/
def maxCount (l : List (String × Nat)) : Nat :=
  l.foldr (fun p acc => Nat.max p.2 acc) 0

/-- Selection rule in the spec's words (refinement side): the first
key attaining a given count. -/
def firstWithCount (m : Nat) : List (String × Nat) → Option String
  | [] => none
  | p :: rest => if p.2 = m then some p.1 else firstWithCount m rest

/-- Selection rule in the spec's words (refinement side): the
identifier with the highest count, a tie resolving to the first key in
the fixed ordering of the list. -/
def specBestLicense (l : List (String × Nat)) : Option String :=
  firstWithCount (maxCount l) l

/-- The message of the second `ValueError` of `parse_license`
(the f-string renders `licenses.keys()` as a `dict_keys([...])`). -/
def no_license_msg (filepath : String) : String :=
  "Could not find a license in " ++ filepath
    ++ ". Looked for: dict_keys([\x27MIT\x27, \x27Apache-2.0\x27, \x27GPL-2.0-or-later\x27, \x27BSD-3-Clause\x27])"

/-- Embeds `parse_license`: find the first license-named file, read it, count
the four keyword patterns and return the best identifier together with
the basename of the matched file. -/
def parse_license (fs : FS) : Except Err (String × String) :=
  match findFirst fs.walk "license" with
  | none => Except.error (Err.valueError "Could not find license file.")
  | some filepath =>
    match readFile fs (osJoin fs.base filepath) with
    | Except.error e => Except.error e
    | Except.ok content =>
      let licenses := licenseCounts content
      if (licenses.map Prod.snd).sum = 0 then
        Except.error (Err.valueError (no_license_msg filepath))
      else
        Except.ok (pyMaxKeyList licenses, basename filepath)

/-- Embeds `get_requirements`: find the first requirements-named file and
return `read().splitlines()`. -/
def get_requirements (fs : FS) : Except Err (List String) :=
  match findFirst fs.walk "requirements" with
  | none => Except.error (Err.valueError "Could not find requirements file.")
  | some filepath =>
    match readFile fs filepath with
    | Except.error e => Except.error e
    | Except.ok content => Except.ok (pySplitlines content)

/-- Embeds `parse_setup_py`: find the first setup-named file, `os.chdir` to
its directory, push that directory onto `sys.path`, run the setup
script, and `os.chdir` back — but only on the success path: an
exception from `run_setup` propagates before the restoring `chdir`
executes. -/
def parse_setup_py (env : Env) (fs : FS) (st : PyState) :
    Except Err Dist × PyState :=
  match findFirst fs.walk "setup" with
  | none => (Except.error (Err.valueError "Could not find setup.py file."), st)
  | some filepath =>
    let current_dir := st.cwd
    let st1 : PyState := { st with cwd := dirname filepath }
    let st2 : PyState := { st1 with sys_path := dirname filepath :: st1.sys_path }
    match env.run_setup filepath st2 with
    | Except.error e => (Except.error e, st2)
    | Except.ok distribution => (Except.ok distribution, { st2 with cwd := current_dir })

/-- The user-lookup URL queried by `validate_maintainers`. -/
def user_url (maintainer : String) : String :=
  "https://api.github.com/users/" ++ maintainer

/-- The `ValueError` message for an unknown maintainer. -/
def maintainer_not_found_msg (maintainer : String) : String :=
  "\x27" ++ maintainer ++ "\x27 could not be found as a GitHub user"

/-- Embeds `validate_maintainers`: GET each user-lookup URL and raise for
status; a raised `HTTPError` whose string contains `"404"` is replaced
by a `ValueError`, any other `HTTPError` is re-raised. -/
def validate_maintainers (env : Env) : List String → Except Err Unit
  | [] => Except.ok ()
  | maintainer :: rest =>
    match raise_for_status (env.http_status (user_url maintainer)) (user_url maintainer) with
    | Except.ok _ => validate_maintainers env rest
    | Except.error (Err.httpError msg) =>
      if pyIn "404".data msg.data then
        Except.error (Err.valueError (maintainer_not_found_msg maintainer))
      else
        Except.error (Err.httpError msg)
    | Except.error e => Except.error e

/-- The `ValueError` message for a URL with a non-200 status. -/
def url_error_msg (url : String) (status : Nat) : String :=
  "URL: " ++ url ++ " returned non-200 status code: " ++ toString status

/-- Embeds `validate_urls`: skip empty entries, GET the rest in order and
require status 200.  The second component records the URLs for which a
request was actually issued (in order, up to and including the first
failure), reifying the network side effect. -/
def validate_urls (env : Env) : List String → Except Err Unit × List String
  | [] => (Except.ok (), [])
  | url :: rest =>
    if url.length = 0 then
      validate_urls env rest
    else
      let status := env.http_status url
      if status ≠ 200 then
        (Except.error (Err.valueError (url_error_msg url status)), [url])
      else
        let r := validate_urls env rest
        (r.1, url :: r.2)

/-- The warning text for a version/tag mismatch. -/
def version_warning (version tag_name : String) : String :=
  "Version \x27" ++ version
    ++ "\x27 in setup.py may not correspond to release tag name: \x27" ++ tag_name ++ "\x27"

/-- The jinja preamble: two `set` lines joined by a newline. -/
def make_preamble (package_name version : String) : String :=
  "\x7b% set name = \x27" ++ package_name ++ "\x27 %\x7d" ++ "\n"
    ++ "\x7b% set version = \x27" ++ version ++ "\x27 %\x7d"

/-- The `meta` dictionary literal of `make_meta_yaml`, field for field. -/
def assemble_meta (username repo tag_name sha256 repo_license license_filename : String)
    (requirements : List String) (dist : Dist) (maintainers : List String)
    (documentation_url : String) : Meta :=
  { package_name := "\x7b\x7b name | lower \x7d\x7d"
    package_version := "\x7b\x7b version \x7d\x7d"
    source_url := "https://github.com/" ++ username ++ "/" ++ repo
      ++ "/archive/refs/tags/" ++ tag_name ++ ".tar.gz"
    source_sha256 := sha256
    build_number := 0
    build_script := "\x7b\x7b PYTHON \x7d\x7d -m pip install . -vv"
    requirements_host := ["python", "pip"] ++ requirements
    requirements_run := ["python"] ++ requirements
    test_imports := [dist.name]
    about_home := dist.url
    about_license := repo_license
    about_license_file := license_filename
    about_summary := dist.description
    about_doc_url := documentation_url
    about_dev_url := "https://github.com/" ++ username ++ "/" ++ repo
    extra_recipe_maintainers := maintainers }

/-- The final output value: preamble, document, and
`preamble + "\n\n" + yaml.dump(meta)`. -/
def assemble_manifest (yaml_dump : Meta → String)
    (username repo tag_name sha256 repo_license license_filename : String)
    (requirements : List String) (dist : Dist) (maintainers : List String)
    (documentation_url : String) : Manifest :=
  let meta := assemble_meta username repo tag_name sha256 repo_license
    license_filename requirements dist maintainers documentation_url
  let preamble := make_preamble dist.name dist.version
  { preamble := preamble
    meta := meta
    text := preamble ++ "\n\n" ++ yaml_dump meta }

/-- Embeds `make_meta_yaml`: the complete pipeline.  The first component is
the produced manifest (or the propagated exception), the second the
list of warnings emitted by `warnings.warn`. -/
def make_meta_yaml (env : Env) (st : PyState) (username repo : String)
    (maintainers : List String) (documentation_url : String) :
    Except Err Manifest × List String :=
  let github_url := "https://github.com/" ++ username ++ "/" ++ repo
  match get_latest_release env username repo with
  | Except.error e => (Except.error e, [])
  | Except.ok tag_name =>
    match download_tar_gz env username repo tag_name with
    | Except.error e => (Except.error e, [])
    | Except.ok response_content =>
      match env.extract response_content with
      | Except.error e => (Except.error e, [])
      | Except.ok extracted_repo =>
        match parse_license extracted_repo with
        | Except.error e => (Except.error e, [])
        | Except.ok (repo_license, license_filename) =>
          match get_requirements extracted_repo with
          | Except.error e => (Except.error e, [])
          | Except.ok requirements =>
            match (parse_setup_py env extracted_repo st).1 with
            | Except.error e => (Except.error e, [])
            | Except.ok distribution_info =>
              let version := distribution_info.version
              let home_url := distribution_info.url
              let sha256 := env.sha256_hex response_content
              match validate_maintainers env maintainers with
              | Except.error e => (Except.error e, [])
              | Except.ok _ =>
                match (validate_urls env [github_url, home_url, documentation_url]).1 with
                | Except.error e => (Except.error e, [])
                | Except.ok _ =>
                  (Except.ok (assemble_manifest env.yaml_dump username repo tag_name
                      sha256 repo_license license_filename requirements
                      distribution_info maintainers documentation_url),
                   if pyIn version.data tag_name.data then []
                   else [version_warning version tag_name])

/-! ### Concrete fixtures

A small extracted tree (one directory with a license, a requirements
file and a setup script) and oracles for the happy path and for the
failure scenarios exercised by the witnesses and counterexamples. -/

/-- Metadata declared by the fixture setup script. -/
def dist0 : Dist :=
  { version := "1.2.0"
    url := "https://example.com"
    name := "samplepkg"
    description := "A sample package" }

/-- The fixture extracted tree. -/
def fs0 : FS :=
  { base := "/tmp/repo"
    walk := [("/tmp/repo", ["LICENSE", "requirements.txt", "setup.py"])]
    contents :=
      [("/tmp/repo/LICENSE", "MIT License"),
       ("/tmp/repo/requirements.txt", "requests>=2.0\npyyaml"),
       ("/tmp/repo/setup.py", "from setuptools import setup")] }

/-- The fixture tree with no license-named file. -/
def fsNoLic : FS :=
  { base := "/tmp/repo"
    walk := [("/tmp/repo", ["requirements.txt", "setup.py"])]
    contents :=
      [("/tmp/repo/requirements.txt", "requests>=2.0\npyyaml"),
       ("/tmp/repo/setup.py", "from setuptools import setup")] }

/-- Initial interpreter state for the fixtures. -/
def pyState0 : PyState :=
  { cwd := "/home/user", sys_path := [] }

/-- Happy-path oracle: every request answers 200, extraction yields
`fs0`, the setup script declares `dist0`. -/
def env0 : Env :=
  { http_status := fun _ => 200
    http_content := fun _ => []
    latest_release_tag := some "v1.2.0"
    extract := fun _ => Except.ok fs0
    sha256_hex := fun _ => "d00d"
    run_setup := fun _ _ => Except.ok dist0
    yaml_dump := fun _ => "yamltext" }

/-- Oracle whose extracted tree has no license file. -/
def envNoLic : Env :=
  { env0 with extract := fun _ => Except.ok fsNoLic }

/-- Oracle whose setup script raises on evaluation. -/
def envBadSetup : Env :=
  { env0 with run_setup := fun _ _ => Except.error (Err.other "invalid setup.py") }

/-- Metadata declaring version `1.1.0` (not contained in the release
tag `v1.2.0`). -/
def dist1 : Dist :=
  { dist0 with version := "1.1.0" }

/-- Oracle whose setup script declares version `1.1.0` (not contained
in the release tag `v1.2.0`). -/
def envOldVersion : Env :=
  { env0 with run_setup := fun _ _ => Except.ok dist1 }

/-- Oracle answering 403 (not 404) for the user `user404`; every other
request answers 200. -/
def env403 : Env :=
  { env0 with http_status := fun url => if url = user_url "user404" then 403 else 200 }

/-- The manifest produced by the happy-path fixture run. -/
def manifest0 : Manifest :=
  assemble_manifest env0.yaml_dump "user" "repo" "v1.2.0" "d00d" "MIT" "LICENSE"
    ["requests>=2.0", "pyyaml"] dist0 ["alice"] ""

/-! ### Helper lemmas -/

theorem maxCount_cons (p : String × Nat) (l : List (String × Nat)) :
    maxCount (p :: l) = Nat.max p.2 (maxCount l) := rfl

theorem firstWithCount_cons (m : Nat) (p : String × Nat) (l : List (String × Nat)) :
    firstWithCount m (p :: l) = if p.2 = m then some p.1 else firstWithCount m l := rfl

/-- Python `max(d, key=...)` picks the first entry attaining the
greatest count: the iteration replaces the current best only on a
strictly greater value. -/
theorem pyMaxKey_spec (l : List (String × Nat)) : ∀ b : String × Nat,
    firstWithCount (maxCount (b :: l)) (b :: l) = some (pyMaxKey b l) := by
  induction l with
  | nil =>
    intro b
    simp [maxCount_cons, maxCount, firstWithCount, pyMaxKey]
  | cons p rest ih =>
    intro b
    rw [pyMaxKey]
    by_cases hbp : b.2 < p.2
    · rw [if_pos hbp]
      have hple : p.2 ≤ maxCount (p :: rest) := by
        rw [maxCount_cons]
        exact Nat.le_max_left _ _
      have hm : maxCount (b :: p :: rest) = maxCount (p :: rest) := by
        rw [maxCount_cons b]
        exact Nat.max_eq_right (le_trans (Nat.le_of_lt hbp) hple)
      rw [hm, firstWithCount_cons, if_neg (by omega), ih p]
    · rw [if_neg hbp]
      have hpb : p.2 ≤ b.2 := Nat.le_of_not_lt hbp
      have hm : maxCount (b :: p :: rest) = maxCount (b :: rest) := by
        simp only [maxCount_cons, Nat.max_def]
        split_ifs <;> omega
      rw [hm]
      by_cases hb : b.2 = maxCount (b :: rest)
      · rw [firstWithCount_cons, if_pos hb, ← ih b, firstWithCount_cons, if_pos hb]
      · have hble : b.2 ≤ maxCount (b :: rest) := by
          rw [maxCount_cons]
          exact Nat.le_max_left _ _
        have hp : p.2 ≠ maxCount (b :: rest) := by omega
        rw [firstWithCount_cons, if_neg hb, firstWithCount_cons, if_neg hp, ← ih b,
          firstWithCount_cons, if_neg hb]

/-- Python `max` over a nonempty count list agrees with "highest
count, ties to the first key in insertion order". -/
theorem specBest_eq_pyMax (b : String × Nat) (l : List (String × Nat)) :
    specBestLicense (b :: l) = some (pyMaxKeyList (b :: l)) :=
  pyMaxKey_spec l b

/-! ### Claim theorems -/

/-- Claim C1: for every license file whose text is read, the
classifier counts case-sensitive `MIT`, case-insensitive `apache`,
case-sensitive `GNU` and case-insensitive `bsd 3` (the four counts in
`licenseCounts`), returns the identifier with the highest count among
the four fixed identifiers together with the matched file's basename,
and resolves ties to the first key in the fixed insertion order
MIT, Apache-2.0, GPL-2.0-or-later, BSD-3-Clause (the Python `max`
result coincides with the spec's first-maximum rule). -/
theorem C1_parse_license_classification (fs : FS) (fp content : String)
    (hfind : findFirst fs.walk "license" = some fp)
    (hread : readFile fs (osJoin fs.base fp) = Except.ok content)
    (hsum : ((licenseCounts content).map Prod.snd).sum ≠ 0) :
    parse_license fs = Except.ok (pyMaxKeyList (licenseCounts content), basename fp) ∧
      specBestLicense (licenseCounts content) =
        some (pyMaxKeyList (licenseCounts content)) := by
  constructor
  · unfold parse_license
    simp only [hfind, hread]
    rw [if_neg hsum]
  · simp only [licenseCounts]
    exact specBest_eq_pyMax _ _

/-- Witness for C1 at the fixture tree. -/
theorem C1_witness :
    parse_license fs0 =
        Except.ok (pyMaxKeyList (licenseCounts "MIT License"), basename "/tmp/repo/LICENSE") ∧
      specBestLicense (licenseCounts "MIT License") =
        some (pyMaxKeyList (licenseCounts "MIT License")) :=
  C1_parse_license_classification fs0 "/tmp/repo/LICENSE" "MIT License" rfl rfl (by decide)

/-- Forward evaluation of the pipeline: when every stage succeeds, the
produced manifest is the assembled document and the warning list is
empty exactly when the tag contains the parsed version. -/
theorem make_meta_yaml_ok (env : Env) (st : PyState) (u r : String) (ms : List String)
    (d tag : String) (bytes : List Nat) (fs : FS) (l1 l2 : String) (reqs : List String)
    (dist : Dist)
    (htag : get_latest_release env u r = Except.ok tag)
    (hdl : download_tar_gz env u r tag = Except.ok bytes)
    (hex : env.extract bytes = Except.ok fs)
    (hL : parse_license fs = Except.ok (l1, l2))
    (hreq : get_requirements fs = Except.ok reqs)
    (hS : (parse_setup_py env fs st).1 = Except.ok dist)
    (hM : validate_maintainers env ms = Except.ok ())
    (hU : (validate_urls env ["https://github.com/" ++ u ++ "/" ++ r, dist.url, d]).1 =
      Except.ok ()) :
    make_meta_yaml env st u r ms d =
      (Except.ok (assemble_manifest env.yaml_dump u r tag (env.sha256_hex bytes) l1 l2
          reqs dist ms d),
       if pyIn dist.version.data tag.data then [] else [version_warning dist.version tag]) := by
  simp only [make_meta_yaml, htag, hdl, hex, hL, hreq, hS, hM, hU]

/-- Inversion of the pipeline: a produced manifest forces every stage
to have succeeded and determines the output completely. -/
theorem make_meta_yaml_ok_inv (env : Env) (st : PyState) (u r : String) (ms : List String)
    (d : String) (m : Manifest) (w : List String)
    (hmk : make_meta_yaml env st u r ms d = (Except.ok m, w)) :
    ∃ tag bytes fs l1 l2 reqs dist,
      get_latest_release env u r = Except.ok tag ∧
      download_tar_gz env u r tag = Except.ok bytes ∧
      env.extract bytes = Except.ok fs ∧
      parse_license fs = Except.ok (l1, l2) ∧
      get_requirements fs = Except.ok reqs ∧
      (parse_setup_py env fs st).1 = Except.ok dist ∧
      validate_maintainers env ms = Except.ok () ∧
      (validate_urls env ["https://github.com/" ++ u ++ "/" ++ r, dist.url, d]).1 =
        Except.ok () ∧
      m = assemble_manifest env.yaml_dump u r tag (env.sha256_hex bytes) l1 l2
        reqs dist ms d ∧
      w = (if pyIn dist.version.data tag.data then []
        else [version_warning dist.version tag]) := by
  unfold make_meta_yaml at hmk
  rcases htag : get_latest_release env u r with e | tag <;>
    rw [htag] at hmk <;> dsimp only at hmk
  · simp at hmk
  rcases hdl : download_tar_gz env u r tag with e | bytes <;>
    rw [hdl] at hmk <;> dsimp only at hmk
  · simp at hmk
  rcases hex : env.extract bytes with e | fs <;>
    rw [hex] at hmk <;> dsimp only at hmk
  · simp at hmk
  rcases hL : parse_license fs with e | ⟨l1, l2⟩ <;>
    rw [hL] at hmk <;> dsimp only at hmk
  · simp at hmk
  rcases hreq : get_requirements fs with e | reqs <;>
    rw [hreq] at hmk <;> dsimp only at hmk
  · simp at hmk
  rcases hS : (parse_setup_py env fs st).1 with e | dist <;>
    rw [hS] at hmk <;> dsimp only at hmk
  · simp at hmk
  rcases hM : validate_maintainers env ms with e | u' <;>
    rw [hM] at hmk <;> dsimp only at hmk
  · simp at hmk
  rcases hU : (validate_urls env ["https://github.com/" ++ u ++ "/" ++ r, dist.url, d]).1
      with e | u'' <;> rw [hU] at hmk <;> dsimp only at hmk
  · simp at hmk
  rw [Prod.mk.injEq] at hmk
  obtain ⟨h1, h2⟩ := hmk
  rw [Except.ok.injEq] at h1
  exact ⟨tag, bytes, fs, l1, l2, reqs, dist, rfl, hdl, hex, hL, hreq, hS, rfl, hU,
    h1.symm, h2.symm⟩

/-- Claim C2: a manifest is produced only if license classification,
dependency reading and build-metadata extraction all succeed, and the
error of the first failing stage aborts the run with no manifest and
no partial output. -/
theorem C2_all_or_nothing (env : Env) (st : PyState) (u r : String) (ms : List String)
    (d tag : String) (bytes : List Nat) (fs : FS)
    (htag : get_latest_release env u r = Except.ok tag)
    (hdl : download_tar_gz env u r tag = Except.ok bytes)
    (hex : env.extract bytes = Except.ok fs) :
    ((∃ m w, make_meta_yaml env st u r ms d = (Except.ok m, w)) →
      (∃ a, parse_license fs = Except.ok a) ∧
        (∃ b, get_requirements fs = Except.ok b) ∧
        (∃ c, (parse_setup_py env fs st).1 = Except.ok c)) ∧
    (∀ e, parse_license fs = Except.error e →
      make_meta_yaml env st u r ms d = (Except.error e, [])) ∧
    (∀ e a, parse_license fs = Except.ok a → get_requirements fs = Except.error e →
      make_meta_yaml env st u r ms d = (Except.error e, [])) ∧
    (∀ e a b, parse_license fs = Except.ok a → get_requirements fs = Except.ok b →
      (parse_setup_py env fs st).1 = Except.error e →
      make_meta_yaml env st u r ms d = (Except.error e, [])) := by
  refine ⟨?_, ?_, ?_, ?_⟩
  · rintro ⟨m, w, hm⟩
    obtain ⟨tag', bytes', fs', l1, l2, reqs, dist, htag', hdl', hex', hL', hreq', hS', -⟩ :=
      make_meta_yaml_ok_inv env st u r ms d m w hm
    rw [htag] at htag'
    injection htag' with e1
    subst e1
    rw [hdl] at hdl'
    injection hdl' with e2
    subst e2
    rw [hex] at hex'
    injection hex' with e3
    subst e3
    exact ⟨⟨_, hL'⟩, ⟨_, hreq'⟩, ⟨_, hS'⟩⟩
  · intro e hL
    simp only [make_meta_yaml, htag, hdl, hex, hL]
  · intro e a hL hR
    obtain ⟨a1, a2⟩ := a
    simp only [make_meta_yaml, htag, hdl, hex, hL, hR]
  · intro e a b hL hR hS
    obtain ⟨a1, a2⟩ := a
    simp only [make_meta_yaml, htag, hdl, hex, hL, hR, hS]

/-- Witness for C2: a run whose extracted tree has no license file
aborts with exactly the license-stage error and no manifest. -/
theorem C2_witness :
    make_meta_yaml envNoLic pyState0 "user" "repo" ["alice"] "" =
      (Except.error (Err.valueError "Could not find license file."), []) :=
  (C2_all_or_nothing envNoLic pyState0 "user" "repo" ["alice"] "" "v1.2.0" [] fsNoLic
    rfl rfl rfl).2.1 (Err.valueError "Could not find license file.") rfl

/-- Claim C3 as stated is false: the run list is not prefixed with
`pip`.  At the fixture input the rendered manifest has run list
`["python", "requests>=2.0", "pyyaml"]`, not
`["python", "pip", "requests>=2.0", "pyyaml"]`. -/
theorem C3_counterexample :
    make_meta_yaml env0 pyState0 "user" "repo" ["alice"] "" = (Except.ok manifest0, []) ∧
    manifest0.meta.requirements_host = ["python", "pip", "requests>=2.0", "pyyaml"] ∧
    manifest0.meta.requirements_run = ["python", "requests>=2.0", "pyyaml"] ∧
    manifest0.meta.requirements_run ≠ ["python", "pip"] ++ ["requests>=2.0", "pyyaml"] := by
  refine ⟨rfl, rfl, rfl, ?_⟩
  decide

/-- Claim C3, amended: in every rendered manifest the host dependency
list is `["python", "pip"]` followed by the raw requirement list in
order, while the run dependency list is `["python"]` (without `pip`)
followed by the raw requirement list in order. -/
theorem C3_dependency_lists (env : Env) (st : PyState) (u r : String) (ms : List String)
    (d tag : String) (bytes : List Nat) (fs : FS) (reqs : List String)
    (m : Manifest) (w : List String)
    (htag : get_latest_release env u r = Except.ok tag)
    (hdl : download_tar_gz env u r tag = Except.ok bytes)
    (hex : env.extract bytes = Except.ok fs)
    (hreq : get_requirements fs = Except.ok reqs)
    (hmk : make_meta_yaml env st u r ms d = (Except.ok m, w)) :
    m.meta.requirements_host = ["python", "pip"] ++ reqs ∧
      m.meta.requirements_run = ["python"] ++ reqs := by
  obtain ⟨tag', bytes', fs', l1, l2, reqs', dist, htag', hdl', hex', hL', hreq', hS', hM',
      hU', hm, hw⟩ := make_meta_yaml_ok_inv env st u r ms d m w hmk
  rw [htag] at htag'
  injection htag' with e1
  subst e1
  rw [hdl] at hdl'
  injection hdl' with e2
  subst e2
  rw [hex] at hex'
  injection hex' with e3
  subst e3
  rw [hreq] at hreq'
  injection hreq' with e4
  subst e4
  subst hm
  exact ⟨rfl, rfl⟩

/-- Witness for the amended C3 at the fixture input. -/
theorem C3_witness :
    manifest0.meta.requirements_host = ["python", "pip"] ++ ["requests>=2.0", "pyyaml"] ∧
      manifest0.meta.requirements_run = ["python"] ++ ["requests>=2.0", "pyyaml"] :=
  C3_dependency_lists env0 pyState0 "user" "repo" ["alice"] "" "v1.2.0" [] fs0
    ["requests>=2.0", "pyyaml"] manifest0 [] rfl rfl rfl rfl rfl

/-- Claim C4 as stated is false: when the setup script raises, the
restoring `os.chdir` is skipped, so the caller observes the setup
file's directory, not the original working directory. -/
theorem C4_counterexample :
    (parse_setup_py envBadSetup fs0 pyState0).1 = Except.error (Err.other "invalid setup.py") ∧
    (parse_setup_py envBadSetup fs0 pyState0).2.cwd = "/tmp/repo" ∧
    pyState0.cwd = "/home/user" ∧
    (parse_setup_py envBadSetup fs0 pyState0).2.cwd ≠ pyState0.cwd := by
  refine ⟨rfl, rfl, rfl, ?_⟩
  decide

/-- When a setup file is found and `run_setup` raises, the error
propagates and the interpreter state keeps the setup directory as
working directory. -/
theorem parse_setup_py_found_err (env : Env) (fs : FS) (st : PyState) (fp : String)
    (e : Err) (hf : findFirst fs.walk "setup" = some fp)
    (hr : env.run_setup fp { cwd := dirname fp, sys_path := dirname fp :: st.sys_path } =
      Except.error e) :
    parse_setup_py env fs st =
      (Except.error e, { cwd := dirname fp, sys_path := dirname fp :: st.sys_path }) := by
  simp only [parse_setup_py, hf, hr]

/-- When a setup file is found and `run_setup` succeeds, the working
directory is restored and the setup directory stays on `sys.path`. -/
theorem parse_setup_py_found_ok (env : Env) (fs : FS) (st : PyState) (fp : String)
    (dist : Dist) (hf : findFirst fs.walk "setup" = some fp)
    (hr : env.run_setup fp { cwd := dirname fp, sys_path := dirname fp :: st.sys_path } =
      Except.ok dist) :
    parse_setup_py env fs st =
      (Except.ok dist, { cwd := st.cwd, sys_path := dirname fp :: st.sys_path }) := by
  simp only [parse_setup_py, hf, hr]

/-- When no setup file is found, `parse_setup_py` raises at once and
leaves the interpreter state untouched. -/
theorem parse_setup_py_none (env : Env) (fs : FS) (st : PyState)
    (hf : findFirst fs.walk "setup" = none) :
    parse_setup_py env fs st =
      (Except.error (Err.valueError "Could not find setup.py file."), st) := by
  unfold parse_setup_py
  rw [hf]

/-- Claim C4, amended: `parse_setup_py` restores the caller's working
directory on every successful return (and leaves the state untouched
when no setup file is found), but when the underlying parse raises,
the error propagates with the working directory left at the setup
file's directory. -/
theorem C4_cwd_restored (env : Env) (fs : FS) (st : PyState) :
    (∀ dist, (parse_setup_py env fs st).1 = Except.ok dist →
      (parse_setup_py env fs st).2.cwd = st.cwd) ∧
    (findFirst fs.walk "setup" = none → (parse_setup_py env fs st).2 = st) ∧
    (∀ fp e, findFirst fs.walk "setup" = some fp →
      env.run_setup fp { cwd := dirname fp, sys_path := dirname fp :: st.sys_path } =
        Except.error e →
      (parse_setup_py env fs st).1 = Except.error e ∧
        (parse_setup_py env fs st).2.cwd = dirname fp) := by
  refine ⟨?_, ?_, ?_⟩
  · intro dist hok
    rcases hf : findFirst fs.walk "setup" with _ | fp
    · rw [parse_setup_py_none env fs st hf] at hok
      simp at hok
    · rcases hr : env.run_setup fp
          { cwd := dirname fp, sys_path := dirname fp :: st.sys_path } with e | dd
      · rw [parse_setup_py_found_err env fs st fp e hf hr] at hok
        simp at hok
      · rw [parse_setup_py_found_ok env fs st fp dd hf hr]
  · intro hf
    rw [parse_setup_py_none env fs st hf]
  · intro fp e hf hr
    rw [parse_setup_py_found_err env fs st fp e hf hr]
    exact ⟨rfl, rfl⟩

/-- Witness for the amended C4: on the happy-path fixture the working
directory is restored. -/
theorem C4_witness : (parse_setup_py env0 fs0 pyState0).2.cwd = pyState0.cwd :=
  (C4_cwd_restored env0 fs0 pyState0).1 dist0 rfl

/-- Claim C10: every successful `parse_setup_py` call leaves the setup
file's directory permanently prepended to the module search path. -/
theorem C10_sys_path_prepended (env : Env) (fs : FS) (st : PyState) (dist : Dist)
    (hok : (parse_setup_py env fs st).1 = Except.ok dist) :
    ∃ fp, findFirst fs.walk "setup" = some fp ∧
      (parse_setup_py env fs st).2.sys_path = dirname fp :: st.sys_path := by
  rcases hf : findFirst fs.walk "setup" with _ | fp
  · rw [parse_setup_py_none env fs st hf] at hok
    simp at hok
  · refine ⟨fp, rfl, ?_⟩
    rcases hr : env.run_setup fp
        { cwd := dirname fp, sys_path := dirname fp :: st.sys_path } with e | dd
    · rw [parse_setup_py_found_err env fs st fp e hf hr]
    · rw [parse_setup_py_found_ok env fs st fp dd hf hr]

/-- Witness for C10 at the fixture input. -/
theorem C10_witness :
    ∃ fp, findFirst fs0.walk "setup" = some fp ∧
      (parse_setup_py env0 fs0 pyState0).2.sys_path = dirname fp :: pyState0.sys_path :=
  C10_sys_path_prepended env0 fs0 pyState0 dist0 rfl

/-- An infix of a list is an infix of any left-extension of it. -/
theorem infix_append_right (s : List Char) {l t : List Char} (h : l <:+: t) :
    l <:+: s ++ t := by
  obtain ⟨u, v, huv⟩ := h
  exact ⟨s ++ u, v, by rw [← huv]; simp⟩

/-- A string has length zero exactly when it is empty. -/
theorem str_length_eq_zero (s : String) : s.length = 0 ↔ s = "" := by
  cases s with
  | mk d => cases d <;> simp [String.length, String.ext_iff]

/-- An error returned by `readFile` is always the OS error naming the
path. -/
theorem readFile_error_shape (fs : FS) (p : String) (e : Err)
    (h : readFile fs p = Except.error e) : e = Err.osError p := by
  unfold readFile at h
  rcases hl : fs.contents.lookup p with _ | c <;> simp only [hl] at h
  · injection h with h1
    exact h1.symm
  · exact Except.noConfusion h

/-- Claim C5 as stated is false: the code tests the substring `"404"`
against `str(exception)`, so a 403 response for the handle `user404`
(whose URL contains `404`) is also translated into the
maintainer-not-found error instead of propagating unchanged. -/
theorem C5_counterexample :
    env403.http_status (user_url "user404") = 403 ∧
    (403 : Nat) ≠ 404 ∧
    validate_maintainers env403 ["user404"] =
      Except.error (Err.valueError (maintainer_not_found_msg "user404")) :=
  ⟨rfl, by decide, rfl⟩

/-- Claim C5, amended: per maintainer handle, a status outside the
HTTP-error range is silent and the loop continues; an HTTP error is
translated into the descriptive maintainer-not-found `ValueError`
exactly when the exception string contains `"404"` as a substring, and
propagates unchanged otherwise.  Every true 404 response is translated
(the exception string starts with the decimal status), but the
criterion is the substring test, not the status itself. -/
theorem C5_maintainer_validation (env : Env) (m : String) :
    (¬ (400 ≤ env.http_status (user_url m) ∧ env.http_status (user_url m) < 600) →
      validate_maintainers env [m] = Except.ok ()) ∧
    (∀ rest, ¬ (400 ≤ env.http_status (user_url m) ∧ env.http_status (user_url m) < 600) →
      validate_maintainers env (m :: rest) = validate_maintainers env rest) ∧
    ((400 ≤ env.http_status (user_url m) ∧ env.http_status (user_url m) < 600) →
      pyIn "404".data (http_error_msg (env.http_status (user_url m)) (user_url m)).data =
        true →
      validate_maintainers env [m] =
        Except.error (Err.valueError (maintainer_not_found_msg m))) ∧
    ((400 ≤ env.http_status (user_url m) ∧ env.http_status (user_url m) < 600) →
      pyIn "404".data (http_error_msg (env.http_status (user_url m)) (user_url m)).data =
        false →
      validate_maintainers env [m] =
        Except.error (Err.httpError
          (http_error_msg (env.http_status (user_url m)) (user_url m)))) ∧
    (env.http_status (user_url m) = 404 →
      pyIn "404".data (http_error_msg (env.http_status (user_url m)) (user_url m)).data =
        true) := by
  refine ⟨?_, ?_, ?_, ?_, ?_⟩
  · intro h
    simp only [validate_maintainers, raise_for_status, if_neg h]
  · intro rest h
    simp only [validate_maintainers, raise_for_status, if_neg h]
  · intro h h4
    simp only [validate_maintainers, raise_for_status, if_pos h, h4]
    rfl
  · intro h h4
    simp only [validate_maintainers, raise_for_status, if_pos h, h4]
    rfl
  · intro h404
    rw [h404]
    have hmsg : http_error_msg 404 (user_url m) =
        "404" ++ " Client Error" ++ " for url: " ++ user_url m := rfl
    rw [hmsg]
    unfold pyIn
    rw [decide_eq_true_eq, String.data_append, String.data_append, String.data_append]
    exact ⟨[], " Client Error".data ++ (" for url: ".data ++ (user_url m).data), by simp⟩

/-- Witness for the amended C5: a 200 status is silent. -/
theorem C5_witness : validate_maintainers env0 ["alice"] = Except.ok () :=
  (C5_maintainer_validation env0 "alice").1 (by decide)

set_option maxRecDepth 16384 in
/-- Claim C6: `parse_license` has exactly two failure modes of its
own, with distinct messages: no license-named file anywhere in the
walk gives the "not found" `ValueError`, and a found file whose four
keyword counts are all zero gives the "no keywords matched"
`ValueError`, which names the file and lists all four candidate
identifiers.  (The only other possible error is an OS-level read
failure, which is not part of the classifier's logic.) -/
theorem C6_license_failure_modes (fs : FS) :
    (findFirst fs.walk "license" = none →
      parse_license fs = Except.error (Err.valueError "Could not find license file.")) ∧
    (∀ fp content, findFirst fs.walk "license" = some fp →
      readFile fs (osJoin fs.base fp) = Except.ok content →
      ((licenseCounts content).map Prod.snd).sum = 0 →
      parse_license fs = Except.error (Err.valueError (no_license_msg fp))) ∧
    (∀ fp, no_license_msg fp ≠ "Could not find license file.") ∧
    (∀ fp, "MIT".data <:+: (no_license_msg fp).data ∧
      "Apache-2.0".data <:+: (no_license_msg fp).data ∧
      "GPL-2.0-or-later".data <:+: (no_license_msg fp).data ∧
      "BSD-3-Clause".data <:+: (no_license_msg fp).data) ∧
    (∀ e, parse_license fs = Except.error e →
      e = Err.valueError "Could not find license file." ∨
      (∃ fp, findFirst fs.walk "license" = some fp ∧
        e = Err.valueError (no_license_msg fp)) ∨
      (∃ p, e = Err.osError p)) := by
  refine ⟨?_, ?_, ?_, ?_, ?_⟩
  · intro hf
    simp only [parse_license, hf]
  · intro fp content hf hr hz
    simp only [parse_license, hf, hr, if_pos hz]
  · intro fp hEq
    have h1 := congrArg String.length hEq
    simp only [no_license_msg, String.length_append] at h1
    have e1 : ("Could not find a license in " : String).length = 28 := rfl
    have e2 : (". Looked for: dict_keys([\x27MIT\x27, \x27Apache-2.0\x27, \x27GPL-2.0-or-later\x27, \x27BSD-3-Clause\x27])" : String).length = 82 := rfl
    have e3 : ("Could not find license file." : String).length = 28 := rfl
    rw [e1, e2, e3] at h1
    omega
  · intro fp
    have hd : (no_license_msg fp).data =
        "Could not find a license in ".data ++ (fp.data ++
          ". Looked for: dict_keys([\x27MIT\x27, \x27Apache-2.0\x27, \x27GPL-2.0-or-later\x27, \x27BSD-3-Clause\x27])".data) := by
      simp [no_license_msg, String.data_append]
    refine ⟨?_, ?_, ?_, ?_⟩ <;> rw [hd] <;>
      exact infix_append_right _ (infix_append_right _ (by decide))
  · intro e h
    rcases hf : findFirst fs.walk "license" with _ | fp
    · left
      simp only [parse_license, hf] at h
      injection h with h1
      exact h1.symm
    · rcases hr : readFile fs (osJoin fs.base fp) with re | content
      · right; right
        simp only [parse_license, hf, hr] at h
        injection h with h1
        have := readFile_error_shape fs (osJoin fs.base fp) re hr
        exact ⟨osJoin fs.base fp, by rw [← h1, this]⟩
      · by_cases hz : ((licenseCounts content).map Prod.snd).sum = 0
        · right; left
          simp only [parse_license, hf, hr, if_pos hz] at h
          injection h with h1
          exact ⟨fp, rfl, h1.symm⟩
        · simp only [parse_license, hf, hr, if_neg hz] at h
          exact Except.noConfusion h

/-- Witness for C6: the fixture tree with no license-named file aborts
with the "not found" error. -/
theorem C6_witness :
    parse_license fsNoLic = Except.error (Err.valueError "Could not find license file.") :=
  (C6_license_failure_modes fsNoLic).1 rfl

/-- Rebuilding with `String.mk` undoes `String.data`. -/
theorem mk_data (s : String) : String.mk s.data = s := rfl

/-- A string has empty character data exactly when it is empty. -/
theorem data_eq_nil_iff (s : String) : s.data = [] ↔ s = "" := by
  cases s with
  | mk d => simp [String.ext_iff]

/-- A line of non-terminator characters followed by a `\n` boundary is
emitted whole by the splitter. -/
theorem splitlinesGo_break (l : List Char) : ∀ cur rest : List Char,
    (∀ c ∈ l, c ≠ '\n' ∧ c ≠ '\r') →
    splitlinesGo false cur (l ++ '\n' :: rest) =
      (cur.reverse ++ l) :: splitlinesGo false [] rest := by
  induction l with
  | nil =>
    intro cur rest _
    simp [splitlinesGo]
  | cons c l ih =>
    intro cur rest h
    have hc := h c (List.mem_cons_self _ _)
    simp only [List.cons_append, splitlinesGo, if_neg hc.1, if_neg hc.2, List.append_eq]
    rw [ih (c :: cur) rest (fun x hx => h x (List.mem_cons_of_mem _ hx))]
    simp

/-- A final run of non-terminator characters is emitted only when
nonempty. -/
theorem splitlinesGo_last (l : List Char) : ∀ cur : List Char,
    (∀ c ∈ l, c ≠ '\n' ∧ c ≠ '\r') →
    splitlinesGo false cur l =
      if (cur.reverse ++ l).isEmpty then [] else [cur.reverse ++ l] := by
  induction l with
  | nil =>
    intro cur _
    cases cur <;> simp [splitlinesGo, List.isEmpty_iff]
  | cons c l ih =>
    intro cur h
    have hc := h c (List.mem_cons_self _ _)
    simp only [splitlinesGo, if_neg hc.1, if_neg hc.2]
    rw [ih (c :: cur) (fun x hx => h x (List.mem_cons_of_mem _ hx))]
    simp

/-- Reading back a file made of newline-joined lines yields exactly
those lines, provided no line contains a terminator and the last line
is not empty (a trailing empty line would be swallowed by Python's
`splitlines`). -/
theorem pySplitlines_joinNL : ∀ lines : List String,
    (∀ line ∈ lines, ∀ ch ∈ line.data, ch ≠ '\n' ∧ ch ≠ '\r') →
    lines.getLast? ≠ some "" →
    pySplitlines (joinNL lines) = lines := by
  intro lines
  induction lines with
  | nil =>
    intro _ _
    rfl
  | cons x rest ih =>
    intro hnl hlast
    cases rest with
    | nil =>
      have hx : x ≠ "" := by
        intro hx0
        apply hlast
        rw [hx0]
        rfl
      have hxd : x.data ≠ [] := fun h0 => hx ((data_eq_nil_iff x).1 h0)
      show (splitlinesGo false [] (joinNL [x]).data).map (fun l => String.mk l) = [x]
      rw [show joinNL [x] = x from rfl,
        splitlinesGo_last x.data [] (fun c hc => hnl x (List.mem_cons_self _ _) c hc)]
      simp [List.isEmpty_iff, hxd, mk_data]
    | cons y rest2 =>
      have hxline := hnl x (List.mem_cons_self _ _)
      show (splitlinesGo false [] (joinNL (x :: y :: rest2)).data).map
        (fun l => String.mk l) = x :: y :: rest2
      have hdata : (joinNL (x :: y :: rest2)).data =
          x.data ++ '\n' :: (joinNL (y :: rest2)).data := by
        rw [show joinNL (x :: y :: rest2) = x ++ "\n" ++ joinNL (y :: rest2) from rfl,
          String.data_append, String.data_append]
        simp
      rw [hdata, splitlinesGo_break x.data [] ((joinNL (y :: rest2)).data)
        (fun c hc => hxline c hc)]
      simp only [List.reverse_nil, List.nil_append, List.map_cons, mk_data]
      exact congrArg (List.cons x)
        (ih (fun line hl => hnl line (List.mem_cons_of_mem _ hl))
          (by rwa [List.getLast?_cons_cons] at hlast))

/-- Claim C7: `get_requirements` aborts with the "not found"
`ValueError` when no requirements-named file exists, and otherwise
returns the matched file's text split into lines in file order — for a
file consisting of given newline-joined lines (none containing a
terminator, last line nonempty) the result is exactly those lines,
with interior blank lines preserved as empty strings. -/
theorem C7_requirements_lines (fs : FS) :
    (findFirst fs.walk "requirements" = none →
      get_requirements fs =
        Except.error (Err.valueError "Could not find requirements file.")) ∧
    (∀ fp content, findFirst fs.walk "requirements" = some fp →
      readFile fs fp = Except.ok content →
      get_requirements fs = Except.ok (pySplitlines content)) ∧
    (∀ fp lines, findFirst fs.walk "requirements" = some fp →
      readFile fs fp = Except.ok (joinNL lines) →
      (∀ line ∈ lines, ∀ ch ∈ line.data, ch ≠ '\n' ∧ ch ≠ '\r') →
      lines.getLast? ≠ some "" →
      get_requirements fs = Except.ok lines) := by
  refine ⟨?_, ?_, ?_⟩
  · intro hf
    simp only [get_requirements, hf]
  · intro fp content hf hr
    simp only [get_requirements, hf, hr]
  · intro fp lines hf hr hnl hlast
    simp only [get_requirements, hf, hr]
    rw [pySplitlines_joinNL lines hnl hlast]

/-- Witness for C7: the two-line fixture requirements file is read
back in file order. -/
theorem C7_witness : get_requirements fs0 = Except.ok ["requests>=2.0", "pyyaml"] :=
  (C7_requirements_lines fs0).2.2 "/tmp/repo/requirements.txt"
    ["requests>=2.0", "pyyaml"] rfl rfl (by decide) (by decide)

/-- An empty URL entry is skipped without any request. -/
theorem validate_urls_cons_empty (env : Env) (url : String) (rest : List String)
    (h0 : url.length = 0) :
    validate_urls env (url :: rest) = validate_urls env rest := by
  simp [validate_urls, h0]

/-- A non-empty URL with a non-200 status aborts at once; only this
URL was requested in this step. -/
theorem validate_urls_cons_fail (env : Env) (url : String) (rest : List String)
    (h0 : ¬ url.length = 0) (hs : ¬ env.http_status url = 200) :
    validate_urls env (url :: rest) =
      (Except.error (Err.valueError (url_error_msg url (env.http_status url))), [url]) := by
  simp [validate_urls, h0, hs]

/-- A non-empty URL with status 200 is requested and the loop
continues. -/
theorem validate_urls_cons_ok (env : Env) (url : String) (rest : List String)
    (h0 : ¬ url.length = 0) (hs : env.http_status url = 200) :
    validate_urls env (url :: rest) =
      ((validate_urls env rest).1, url :: (validate_urls env rest).2) := by
  simp [validate_urls, h0, hs]

/-- No request is ever issued for an empty-string entry. -/
theorem validate_urls_no_empty (env : Env) : ∀ urls : List String,
    "" ∉ (validate_urls env urls).2 := by
  intro urls
  induction urls with
  | nil => simp [validate_urls]
  | cons url rest ih =>
    by_cases h0 : url.length = 0
    · rw [validate_urls_cons_empty env url rest h0]
      exact ih
    · have hne : url ≠ "" := fun he => h0 (by rw [he]; rfl)
      by_cases hs : env.http_status url = 200
      · rw [validate_urls_cons_ok env url rest h0 hs]
        intro hmem
        rcases List.mem_cons.mp hmem with he | hm
        · exact hne he.symm
        · exact ih hm
      · rw [validate_urls_cons_fail env url rest h0 hs]
        intro hmem
        rcases List.mem_cons.mp hmem with he | hm
        · exact hne he.symm
        · simp at hm

/-- The loop succeeds exactly when every non-empty URL answers 200. -/
theorem validate_urls_ok_iff (env : Env) : ∀ urls : List String,
    (validate_urls env urls).1 = Except.ok () ↔
      ∀ u ∈ urls, u ≠ "" → env.http_status u = 200 := by
  intro urls
  induction urls with
  | nil => simp [validate_urls]
  | cons url rest ih =>
    by_cases h0 : url.length = 0
    · have he : url = "" := (str_length_eq_zero url).1 h0
      subst he
      rw [validate_urls_cons_empty env "" rest h0, ih]
      constructor
      · intro h u hu hune
        rcases List.mem_cons.mp hu with rfl | hu2
        · exact absurd rfl hune
        · exact h u hu2 hune
      · intro hall u hu hune
        exact hall u (List.mem_cons_of_mem _ hu) hune
    · have hne : url ≠ "" := fun he => h0 (by rw [he]; rfl)
      by_cases hs : env.http_status url = 200
      · rw [validate_urls_cons_ok env url rest h0 hs]
        dsimp only
        rw [ih]
        constructor
        · intro h u hu hune
          rcases List.mem_cons.mp hu with rfl | hu2
          · exact hs
          · exact h u hu2 hune
        · intro hall u hu hune
          exact hall u (List.mem_cons_of_mem _ hu) hune
      · rw [validate_urls_cons_fail env url rest h0 hs]
        dsimp only
        constructor
        · intro h
          exact absurd h (by simp)
        · intro hall
          exact absurd (hall url (List.mem_cons_self _ _) hne) hs

/-- On full success, the requested URLs are exactly the non-empty
entries in order. -/
theorem validate_urls_trace (env : Env) : ∀ urls : List String,
    (∀ u ∈ urls, u ≠ "" → env.http_status u = 200) →
    (validate_urls env urls).2 = urls.filter (fun u => u.length != 0) := by
  intro urls
  induction urls with
  | nil =>
    intro _
    simp [validate_urls]
  | cons url rest ih =>
    intro hall
    by_cases h0 : url.length = 0
    · rw [validate_urls_cons_empty env url rest h0,
        ih (fun u hu h => hall u (List.mem_cons_of_mem _ hu) h)]
      have hp : (url.length != 0) = false := by simp [h0]
      simp [List.filter_cons, hp]
    · have hne : url ≠ "" := fun he => h0 (by rw [he]; rfl)
      have hs : env.http_status url = 200 := hall url (List.mem_cons_self _ _) hne
      rw [validate_urls_cons_ok env url rest h0 hs]
      dsimp only
      rw [ih (fun u hu h => hall u (List.mem_cons_of_mem _ hu) h)]
      have hp : (url.length != 0) = true := by simp [h0]
      simp [List.filter_cons, hp]

/-- The first non-empty URL with a non-200 status determines the
error. -/
theorem validate_urls_first_fail (env : Env) : ∀ (pre : List String) (u : String)
    (post : List String),
    (∀ x ∈ pre, x = "" ∨ env.http_status x = 200) →
    u ≠ "" → env.http_status u ≠ 200 →
    (validate_urls env (pre ++ u :: post)).1 =
      Except.error (Err.valueError (url_error_msg u (env.http_status u))) := by
  intro pre
  induction pre with
  | nil =>
    intro u post _ hu hs
    have h0 : ¬ u.length = 0 := fun h => hu ((str_length_eq_zero u).1 h)
    rw [List.nil_append, validate_urls_cons_fail env u post h0 hs]
  | cons x pre ih =>
    intro u post hpre hu hs
    by_cases hx0 : x.length = 0
    · rw [List.cons_append, validate_urls_cons_empty env x _ hx0]
      exact ih u post (fun y hy => hpre y (List.mem_cons_of_mem _ hy)) hu hs
    · have hx200 : env.http_status x = 200 := by
        rcases hpre x (List.mem_cons_self _ _) with he | h2
        · exact absurd (by rw [he] : x.length = ("" : String).length) hx0
        · exact h2
      rw [List.cons_append, validate_urls_cons_ok env x _ hx0 hx200]
      dsimp only
      exact ih u post (fun y hy => hpre y (List.mem_cons_of_mem _ hy)) hu hs

/-- Claim C8: `validate_urls` never issues a request for an
empty-string entry, succeeds exactly when every non-empty entry
answers 200 (requesting exactly the non-empty entries, in order), and
aborts on the first non-empty entry with a non-200 status with an
error naming that URL and the observed status. -/
theorem C8_url_validation (env : Env) (urls : List String) :
    ("" ∉ (validate_urls env urls).2) ∧
    ((validate_urls env urls).1 = Except.ok () ↔
      ∀ u ∈ urls, u ≠ "" → env.http_status u = 200) ∧
    ((∀ u ∈ urls, u ≠ "" → env.http_status u = 200) →
      (validate_urls env urls).2 = urls.filter (fun u => u.length != 0)) ∧
    (∀ pre u post, urls = pre ++ u :: post →
      (∀ x ∈ pre, x = "" ∨ env.http_status x = 200) →
      u ≠ "" → env.http_status u ≠ 200 →
      (validate_urls env urls).1 =
        Except.error (Err.valueError (url_error_msg u (env.http_status u)))) :=
  ⟨validate_urls_no_empty env urls, validate_urls_ok_iff env urls,
    validate_urls_trace env urls,
    fun pre u post hsplit hpre hu hs => by
      rw [hsplit]
      exact validate_urls_first_fail env pre u post hpre hu hs⟩

/-- Witness for C8: with an empty entry in the middle, exactly the two
non-empty entries are requested. -/
theorem C8_witness :
    (validate_urls env0 ["https://a.example", "", "https://b.example"]).2 =
      List.filter (fun u => u.length != 0) ["https://a.example", "", "https://b.example"] :=
  (C8_url_validation env0 ["https://a.example", "", "https://b.example"]).2.2.1
    (fun _ _ _ => rfl)

/-- Claim C9: when every pipeline stage succeeds, a version string not
occurring in the release tag only adds a warning — the run still
completes and renders the manifest — and when the tag contains the
version, no warning is emitted. -/
theorem C9_version_mismatch_warning (env : Env) (st : PyState) (u r : String)
    (ms : List String) (d tag : String) (bytes : List Nat) (fs : FS) (l1 l2 : String)
    (reqs : List String) (dist : Dist)
    (htag : get_latest_release env u r = Except.ok tag)
    (hdl : download_tar_gz env u r tag = Except.ok bytes)
    (hex : env.extract bytes = Except.ok fs)
    (hL : parse_license fs = Except.ok (l1, l2))
    (hreq : get_requirements fs = Except.ok reqs)
    (hS : (parse_setup_py env fs st).1 = Except.ok dist)
    (hM : validate_maintainers env ms = Except.ok ())
    (hU : (validate_urls env ["https://github.com/" ++ u ++ "/" ++ r, dist.url, d]).1 =
      Except.ok ()) :
    (pyIn dist.version.data tag.data = false →
      make_meta_yaml env st u r ms d =
        (Except.ok (assemble_manifest env.yaml_dump u r tag (env.sha256_hex bytes) l1 l2
            reqs dist ms d),
         [version_warning dist.version tag])) ∧
    (pyIn dist.version.data tag.data = true →
      make_meta_yaml env st u r ms d =
        (Except.ok (assemble_manifest env.yaml_dump u r tag (env.sha256_hex bytes) l1 l2
            reqs dist ms d),
         [])) := by
  constructor <;> intro hv <;>
    rw [make_meta_yaml_ok env st u r ms d tag bytes fs l1 l2 reqs dist
      htag hdl hex hL hreq hS hM hU] <;>
    simp [hv]

/-- Witness for C9: the fixture with setup version 1.1.0 against tag
v1.2.0 still renders and emits exactly the mismatch warning. -/
theorem C9_witness :
    make_meta_yaml envOldVersion pyState0 "user" "repo" ["alice"] "" =
      (Except.ok (assemble_manifest envOldVersion.yaml_dump "user" "repo" "v1.2.0"
          (envOldVersion.sha256_hex []) "MIT" "LICENSE" ["requests>=2.0", "pyyaml"]
          dist1 ["alice"] ""),
       [version_warning dist1.version "v1.2.0"]) :=
  (C9_version_mismatch_warning envOldVersion pyState0 "user" "repo" ["alice"] ""
    "v1.2.0" [] fs0 "MIT" "LICENSE" ["requests>=2.0", "pyyaml"] dist1
    rfl rfl rfl rfl rfl rfl rfl rfl).1 (by decide)

end CondaMeta
